import Mathlib

/-!
Verification development for the royal-gems admin panel.

The definitions below are a shallow embedding of the security-relevant
request handlers of the repository:

* `middlewareA` embeds `src/middleware.ts` (the main Access Gate variant);
* `middlewareB` embeds the alternative middleware variant
  (`src/unnamed/part_000`), which differs in its handling of a missing
  `lastActivity` cookie and in its role set;
* `loginPOST` embeds `src/app/api/auth/login/route.ts`;
* `logoutPOST` embeds `src/app/api/auth/logout/route.ts`;
* `paymentCreatePOST` embeds `src/app/api/payment/create/route.ts`.

External services (identity provider, persistence) are represented by
explicit environment records passed to each handler; machine time is an
explicit `now : Int` parameter (epoch milliseconds).  JavaScript string
falsiness (`!s` is true for a missing value and for the empty string) is
modelled by `optFalsy` on `Option String`.
-/

/-- A user profile row as read from the Profile Store: the fields the
gate, login and payment handlers consult. -/
structure UserProfile where
  id : String
  email : String
  first_name : String
  last_name : String
  role : String
  is_active : Bool
  two_factor_enabled : Bool
deriving DecidableEq

/-- String prefix test over the character list (kernel-reducible stand-in
for `String.startsWith`). -/
def strStartsWith (s p : String) : Bool :=
  p.data.isPrefixOf s.data

/-- Character-wise uppercasing (stand-in for `String.toUpperCase()`). -/
def strToUpper (s : String) : String :=
  ⟨s.data.map Char.toUpper⟩

/-- Character-wise lowercasing (stand-in for `String.toLowerCase()`). -/
def strToLower (s : String) : String :=
  ⟨s.data.map Char.toLower⟩

/-- JavaScript falsiness of an optional string: `!s` holds when the value
is absent or is the empty string. -/
def optFalsy : Option String → Bool
  | none => true
  | some s => s.data.isEmpty

/-- `request.method.toUpperCase()` membership in {POST, PUT, PATCH, DELETE},
as computed by both middleware variants. -/
def isMutatingMethod (m : String) : Bool :=
  let u := strToUpper m
  u == ("POST") || u == ("PUT") || u == ("PATCH") || u == ("DELETE")

/-- The CSRF double-submit check fails, per both middleware variants:
`!csrfHeader || !csrfCookie || csrfHeader !== csrfCookie`. -/
def csrfCheckFails (csrfHeader csrfCookie : Option String) : Bool :=
  optFalsy csrfHeader || optFalsy csrfCookie || csrfHeader != csrfCookie

/-- `ADMIN_ROLES` of `src/middleware.ts`: exact-match role set. -/
def ADMIN_ROLES_A : List String :=
  [("superadmin"), ("admin"), ("moderator")]

/-- `ADMIN_ROLES` of the alternative middleware variant
(`src/unnamed/part_000`): exact-match set listing two casings of each
privileged role. -/
def ADMIN_ROLES_B : List String :=
  [("superadmin"), ("admin"), ("moderator"),
   ("SuperAdmin"), ("Admin"), ("Moderator")]

/-- The privileged-role test as the spec words it for step 5 of the gate:
membership in {superadmin, admin, moderator} compared without regard to
letter case.  Used only to compare the spec's wording with the code's
exact-match sets. -/
def specCaseInsensitivePrivileged (role : String) : Bool :=
  ADMIN_ROLES_A.contains (strToLower role)

/-- The terminal decision of the Access Gate for one request. -/
inductive GateDecision where
  | allow
  | redirectLogin (reason : String)
  | redirectForbidden
deriving DecidableEq

/-- Outcome of one middleware run: the decision, and whether the outgoing
response sets a fresh `lastActivity` cookie. -/
structure GateResult where
  decision : GateDecision
  setsLastActivity : Bool
deriving DecidableEq

/-- The request data the middleware reads: path, method, the
`x-csrf-token` header, and the `csrfToken` / `lastActivity` cookies.
The `lastActivity` cookie is carried as its parsed epoch-millis value;
`none` stands for a missing (or empty, hence falsy) cookie. -/
structure MwRequest where
  pathname : String
  method : String
  csrfHeader : Option String
  csrfCookie : Option String
  lastActivity : Option Int
deriving DecidableEq

/-- The environment a middleware run observes: current time, configured
idle timeout, the identity provider's answer (an error flag and an
optional user id), and the Profile Store lookup. -/
structure MwEnv where
  now : Int
  sessionTimeoutMs : Int
  sessionError : Bool
  sessionUser : Option String
  findProfile : String → Option UserProfile

/-- The idle-timeout test of `src/middleware.ts`:
`!lastActivity || Date.now() - Number(lastActivity) > sessionTimeoutMs`. -/
def idleExpiredA (env : MwEnv) (req : MwRequest) : Bool :=
  match req.lastActivity with
  | none => true
  | some la => decide (env.now - la > env.sessionTimeoutMs)

/-- The Access Gate of `src/middleware.ts` (main variant). -/
def middlewareA (env : MwEnv) (req : MwRequest) : GateResult :=
  if ¬ strStartsWith req.pathname ("/admin") then ⟨.allow, false⟩
  else if req.pathname == ("/admin/login") then ⟨.allow, false⟩
  else if idleExpiredA env req then ⟨.redirectLogin ("session_expired"), false⟩
  else if isMutatingMethod req.method && csrfCheckFails req.csrfHeader req.csrfCookie then
    ⟨.redirectForbidden, false⟩
  else if env.sessionError then ⟨.redirectLogin ("unauthenticated"), false⟩
  else
    match env.sessionUser with
    | none => ⟨.redirectLogin ("unauthenticated"), false⟩
    | some uid =>
      match env.findProfile uid with
      | none => ⟨.redirectLogin ("user_not_found"), false⟩
      | some profile =>
        if ¬ ADMIN_ROLES_A.contains profile.role then ⟨.redirectForbidden, false⟩
        else if strStartsWith req.pathname ("/admin/settings") &&
            profile.role != ("superadmin") then
          ⟨.redirectForbidden, false⟩
        else ⟨.allow, true⟩

/-- The Access Gate of the alternative variant (`src/unnamed/part_000`):
a missing `lastActivity` cookie is initialized and the request is let
through; the role set is `ADMIN_ROLES_B`; the settings sub-path check
lowercases the role. -/
def middlewareB (env : MwEnv) (req : MwRequest) : GateResult :=
  if ¬ strStartsWith req.pathname ("/admin") then ⟨.allow, false⟩
  else if req.pathname == ("/admin/login") then ⟨.allow, false⟩
  else
    match req.lastActivity with
    | none => ⟨.allow, true⟩
    | some la =>
      if env.now - la > env.sessionTimeoutMs then
        ⟨.redirectLogin ("session_expired"), false⟩
      else if isMutatingMethod req.method && csrfCheckFails req.csrfHeader req.csrfCookie then
        ⟨.redirectForbidden, false⟩
      else if env.sessionError then ⟨.redirectLogin ("unauthenticated"), false⟩
      else
        match env.sessionUser with
        | none => ⟨.redirectLogin ("unauthenticated"), false⟩
        | some uid =>
          match env.findProfile uid with
          | none => ⟨.redirectLogin ("user_not_found"), false⟩
          | some profile =>
            if ¬ ADMIN_ROLES_B.contains profile.role then ⟨.redirectForbidden, false⟩
            else if strStartsWith req.pathname ("/admin/settings") &&
                strToLower profile.role != ("superadmin") then
              ⟨.redirectForbidden, false⟩
            else ⟨.allow, true⟩

lemma str_data_isEmpty_iff (s : String) : s.data.isEmpty = true ↔ s = ("") := by
  cases s with
  | mk l =>
    cases l with
    | nil => simp [List.isEmpty]
    | cons a t =>
      simp only [List.isEmpty, Bool.false_eq_true, false_iff]
      intro hcontra
      have : (a :: t) = ([] : List Char) := congrArg String.data hcontra
      exact List.cons_ne_nil a t this

/-- The CSRF double-submit check passes exactly when the header is
present, non-empty, and equal to the cookie value. -/
lemma csrfCheckFails_eq_false_iff (h c : Option String) :
    csrfCheckFails h c = false ↔ ∃ t, h = some t ∧ t ≠ ("") ∧ c = some t := by
  cases h with
  | none => simp [csrfCheckFails, optFalsy]
  | some s =>
    cases c with
    | none => simp [csrfCheckFails, optFalsy]
    | some u =>
      simp only [csrfCheckFails, optFalsy, Bool.or_eq_false_iff, bne_eq_false_iff_eq,
        Option.some.injEq, Option.some_inj]
      constructor
      · rintro ⟨⟨hs, hu⟩, he⟩
        exact ⟨s, rfl, fun hx => by simp [hx] at hs, he.symm⟩
      · rintro ⟨t, ht, hne, hu⟩
        cases ht
        cases hu
        have hs : s.data.isEmpty = false := by
          cases hhe : s.data.isEmpty with
          | false => rfl
          | true => exact absurd ((str_data_isEmpty_iff s).mp hhe) hne
        exact ⟨⟨hs, hs⟩, rfl⟩

/-- C1: an administrative request (non-public path) whose `lastActivity`
cookie is present with `now - lastActivity > sessionTimeoutMs` is denied
with a redirect reason `session_expired` in both middleware variants,
for every CSRF header/cookie, session state, and role: the idle-timeout
check is evaluated before the CSRF, session, profile and role checks. -/
theorem idle_timeout_denies_first (env : MwEnv) (req : MwRequest)
    (hAdmin : strStartsWith req.pathname ("/admin") = true)
    (hPub : req.pathname ≠ ("/admin/login"))
    (la : Int) (hLa : req.lastActivity = some la)
    (hExp : env.now - la > env.sessionTimeoutMs) :
    middlewareA env req = ⟨.redirectLogin ("session_expired"), false⟩ ∧
    middlewareB env req = ⟨.redirectLogin ("session_expired"), false⟩ := by
  constructor
  · simp [middlewareA, hAdmin, hPub, idleExpiredA, hLa, hExp]
  · simp [middlewareB, hAdmin, hPub, hLa, hExp]

theorem idle_timeout_denies_first_witness :
    middlewareA ⟨4000000, 1800000, false, none, fun _ => none⟩
      ⟨("/admin/gems"), ("POST"), some ("tok"), some ("tok"), some 100⟩ =
      ⟨.redirectLogin ("session_expired"), false⟩ ∧
    middlewareB ⟨4000000, 1800000, false, none, fun _ => none⟩
      ⟨("/admin/gems"), ("POST"), some ("tok"), some ("tok"), some 100⟩ =
      ⟨.redirectLogin ("session_expired"), false⟩ :=
  idle_timeout_denies_first
    ⟨4000000, 1800000, false, none, fun _ => none⟩
    ⟨("/admin/gems"), ("POST"), some ("tok"), some ("tok"), some 100⟩
    (by decide) (by decide) 100 rfl (by decide)

/-- C3: a mutating administrative request that passes the idle-timeout
check (cookie present and fresh) and whose `x-csrf-token` header is not
present, non-empty and exactly equal to the `csrfToken` cookie value is
denied with the generic forbidden redirect (no reason) in both
middleware variants, regardless of session state and role. -/
theorem csrf_mismatch_forbidden (env : MwEnv) (req : MwRequest)
    (hAdmin : strStartsWith req.pathname ("/admin") = true)
    (hPub : req.pathname ≠ ("/admin/login"))
    (la : Int) (hLa : req.lastActivity = some la)
    (hFresh : ¬ env.now - la > env.sessionTimeoutMs)
    (hMut : isMutatingMethod req.method = true)
    (hBad : ¬ ∃ t, req.csrfHeader = some t ∧ t ≠ ("") ∧ req.csrfCookie = some t) :
    middlewareA env req = ⟨.redirectForbidden, false⟩ ∧
    middlewareB env req = ⟨.redirectForbidden, false⟩ := by
  have hf : csrfCheckFails req.csrfHeader req.csrfCookie = true := by
    cases hc : csrfCheckFails req.csrfHeader req.csrfCookie with
    | true => rfl
    | false =>
      exact absurd ((csrfCheckFails_eq_false_iff req.csrfHeader req.csrfCookie).mp hc) hBad
  constructor
  · simp [middlewareA, hAdmin, hPub, idleExpiredA, hLa, hFresh, hMut, hf]
  · simp [middlewareB, hAdmin, hPub, hLa, hFresh, hMut, hf]

theorem csrf_mismatch_forbidden_witness :
    middlewareA ⟨2000000, 1800000, false, some ("u1"), fun _ => none⟩
      ⟨("/admin/gems"), ("POST"), some ("aaa"), some ("bbb"), some 1999000⟩ =
      ⟨.redirectForbidden, false⟩ ∧
    middlewareB ⟨2000000, 1800000, false, some ("u1"), fun _ => none⟩
      ⟨("/admin/gems"), ("POST"), some ("aaa"), some ("bbb"), some 1999000⟩ =
      ⟨.redirectForbidden, false⟩ :=
  csrf_mismatch_forbidden
    ⟨2000000, 1800000, false, some ("u1"), fun _ => none⟩
    ⟨("/admin/gems"), ("POST"), some ("aaa"), some ("bbb"), some 1999000⟩
    (by decide) (by decide) 1999000 rfl (by decide) (by decide)
    (by
      rintro ⟨t, ht, hne, hc⟩
      injection ht with ht2
      subst ht2
      exact absurd hc (by decide))

/-- C2 as stated is false on the code: this mutating request lacks any
identity-provider session (`sessionUser = none`, no provider error), yet
the gate redirects to the generic forbidden page, not to the login page
with reason `unauthenticated`, because the CSRF check runs before the
session check. -/
theorem no_session_not_always_unauthenticated :
    (MwEnv.mk 2000000 1800000 false none (fun _ => none)).sessionUser = none ∧
    middlewareA (MwEnv.mk 2000000 1800000 false none (fun _ => none))
      ⟨("/admin/gems"), ("POST"), none, none, some 1999000⟩ =
      ⟨.redirectForbidden, false⟩ ∧
    (middlewareA (MwEnv.mk 2000000 1800000 false none (fun _ => none))
      ⟨("/admin/gems"), ("POST"), none, none, some 1999000⟩).decision ≠
      .redirectLogin ("unauthenticated") := by
  refine ⟨rfl, by decide, by decide⟩

/-- C2 (amended): a request to a non-public administrative path that
passes the idle-timeout check and — when mutating — the CSRF check, and
that lacks a valid identity-provider session (provider error or no
session), is denied with redirect reason `unauthenticated` in both
middleware variants; this holds for every HTTP method. -/
theorem no_session_unauthenticated (env : MwEnv) (req : MwRequest)
    (hAdmin : strStartsWith req.pathname ("/admin") = true)
    (hPub : req.pathname ≠ ("/admin/login"))
    (la : Int) (hLa : req.lastActivity = some la)
    (hFresh : ¬ env.now - la > env.sessionTimeoutMs)
    (hCsrf : (isMutatingMethod req.method && csrfCheckFails req.csrfHeader req.csrfCookie) = false)
    (hNoSession : env.sessionError = true ∨ env.sessionUser = none) :
    middlewareA env req = ⟨.redirectLogin ("unauthenticated"), false⟩ ∧
    middlewareB env req = ⟨.redirectLogin ("unauthenticated"), false⟩ := by
  constructor
  · cases hNoSession with
    | inl hErr => simp [middlewareA, hAdmin, hPub, idleExpiredA, hLa, hFresh, hCsrf, hErr]
    | inr hNone =>
      cases hE : env.sessionError with
      | true => simp [middlewareA, hAdmin, hPub, idleExpiredA, hLa, hFresh, hCsrf, hE]
      | false =>
        simp [middlewareA, hAdmin, hPub, idleExpiredA, hLa, hFresh, hCsrf, hE, hNone]
  · cases hNoSession with
    | inl hErr => simp [middlewareB, hAdmin, hPub, hLa, hFresh, hCsrf, hErr]
    | inr hNone =>
      cases hE : env.sessionError with
      | true => simp [middlewareB, hAdmin, hPub, hLa, hFresh, hCsrf, hE]
      | false =>
        simp [middlewareB, hAdmin, hPub, hLa, hFresh, hCsrf, hE, hNone]

theorem no_session_unauthenticated_witness :
    middlewareA ⟨2000000, 1800000, false, none, fun _ => none⟩
      ⟨("/admin/gems"), ("DELETE"), some ("tok"), some ("tok"), some 1999000⟩ =
      ⟨.redirectLogin ("unauthenticated"), false⟩ ∧
    middlewareB ⟨2000000, 1800000, false, none, fun _ => none⟩
      ⟨("/admin/gems"), ("DELETE"), some ("tok"), some ("tok"), some 1999000⟩ =
      ⟨.redirectLogin ("unauthenticated"), false⟩ :=
  no_session_unauthenticated
    ⟨2000000, 1800000, false, none, fun _ => none⟩
    ⟨("/admin/gems"), ("DELETE"), some ("tok"), some ("tok"), some 1999000⟩
    (by decide) (by decide) 1999000 rfl (by decide) (by decide) (Or.inr rfl)

/-- C10: in the alternative middleware variant, a request to a
non-public administrative path with no `lastActivity` cookie is let
through with the cookie freshly initialized, for every CSRF header and
cookie, every session state and every profile/role: none of the later
checks is consulted. -/
theorem missing_lastActivity_admits (env : MwEnv) (req : MwRequest)
    (hAdmin : strStartsWith req.pathname ("/admin") = true)
    (hPub : req.pathname ≠ ("/admin/login"))
    (hNoLa : req.lastActivity = none) :
    middlewareB env req = ⟨.allow, true⟩ := by
  simp [middlewareB, hAdmin, hPub, hNoLa]

theorem missing_lastActivity_admits_witness :
    middlewareB ⟨2000000, 1800000, true, none, fun _ => none⟩
      ⟨("/admin/users"), ("DELETE"), none, none, none⟩ = ⟨.allow, true⟩ :=
  missing_lastActivity_admits
    ⟨2000000, 1800000, true, none, fun _ => none⟩
    ⟨("/admin/users"), ("DELETE"), none, none, none⟩
    (by decide) (by decide) rfl

/-- C7 as stated is false on the code: the role ADMIN is, compared
without regard to letter case, a member of
{superadmin, admin, moderator}, yet both middleware variants deny the
request with the forbidden redirect, because both compare roles by exact
string match. -/
theorem role_check_not_case_insensitive :
    specCaseInsensitivePrivileged ("ADMIN") = true ∧
    middlewareA
      ⟨2000000, 1800000, false, some ("u1"),
        fun _ => some ⟨("u1"), ("a@b.c"), ("A"), ("B"), ("ADMIN"), true, false⟩⟩
      ⟨("/admin/gems"), ("GET"), none, none, some 1999000⟩ =
      ⟨.redirectForbidden, false⟩ ∧
    middlewareB
      ⟨2000000, 1800000, false, some ("u1"),
        fun _ => some ⟨("u1"), ("a@b.c"), ("A"), ("B"), ("ADMIN"), true, false⟩⟩
      ⟨("/admin/gems"), ("GET"), none, none, some 1999000⟩ =
      ⟨.redirectForbidden, false⟩ := by
  refine ⟨by decide, by decide, by decide⟩

/-- C7 (amended): the role-authorization step compares roles by exact
string match.  For a request that reaches step 5 (non-public admin path,
fresh `lastActivity`, CSRF guard passed, session resolved, profile found)
outside the settings sub-path, the main variant allows exactly the roles
in `ADMIN_ROLES_A` = {superadmin, admin, moderator} and otherwise denies
with the forbidden redirect; the alternative variant allows exactly the
roles in `ADMIN_ROLES_B` (which adds SuperAdmin, Admin, Moderator). -/
theorem role_check_exact_match (env : MwEnv) (req : MwRequest)
    (uid : String) (profile : UserProfile)
    (hAdmin : strStartsWith req.pathname ("/admin") = true)
    (hPub : req.pathname ≠ ("/admin/login"))
    (la : Int) (hLa : req.lastActivity = some la)
    (hFresh : ¬ env.now - la > env.sessionTimeoutMs)
    (hCsrf : (isMutatingMethod req.method && csrfCheckFails req.csrfHeader req.csrfCookie) = false)
    (hErr : env.sessionError = false)
    (hUid : env.sessionUser = some uid)
    (hProf : env.findProfile uid = some profile)
    (hNotSettings : strStartsWith req.pathname ("/admin/settings") = false) :
    (middlewareA env req = ⟨.allow, true⟩ ↔ ADMIN_ROLES_A.contains profile.role = true) ∧
    (ADMIN_ROLES_A.contains profile.role = false →
      middlewareA env req = ⟨.redirectForbidden, false⟩) ∧
    (middlewareB env req = ⟨.allow, true⟩ ↔ ADMIN_ROLES_B.contains profile.role = true) ∧
    (ADMIN_ROLES_B.contains profile.role = false →
      middlewareB env req = ⟨.redirectForbidden, false⟩) := by
  have hA : middlewareA env req =
      (if ADMIN_ROLES_A.contains profile.role then ⟨.allow, true⟩
       else ⟨.redirectForbidden, false⟩) := by
    by_cases hRole : ADMIN_ROLES_A.contains profile.role = true
    · simp [middlewareA, hAdmin, hPub, idleExpiredA, hLa, hFresh, hCsrf, hErr,
        hUid, hProf, hNotSettings, hRole]
    · simp only [Bool.not_eq_true] at hRole
      simp [middlewareA, hAdmin, hPub, idleExpiredA, hLa, hFresh, hCsrf, hErr,
        hUid, hProf, hNotSettings, hRole]
  have hB : middlewareB env req =
      (if ADMIN_ROLES_B.contains profile.role then ⟨.allow, true⟩
       else ⟨.redirectForbidden, false⟩) := by
    by_cases hRole : ADMIN_ROLES_B.contains profile.role = true
    · simp [middlewareB, hAdmin, hPub, hLa, hFresh, hCsrf, hErr,
        hUid, hProf, hNotSettings, hRole]
    · simp only [Bool.not_eq_true] at hRole
      simp [middlewareB, hAdmin, hPub, hLa, hFresh, hCsrf, hErr,
        hUid, hProf, hNotSettings, hRole]
  refine ⟨?_, ?_, ?_, ?_⟩
  · rw [hA]
    by_cases hRole : ADMIN_ROLES_A.contains profile.role = true
    · simp [hRole]
    · simp only [Bool.not_eq_true] at hRole
      simp [hRole]
  · intro hRole
    rw [hA, hRole]
    simp
  · rw [hB]
    by_cases hRole : ADMIN_ROLES_B.contains profile.role = true
    · simp [hRole]
    · simp only [Bool.not_eq_true] at hRole
      simp [hRole]
  · intro hRole
    rw [hB, hRole]
    simp

theorem role_check_exact_match_witness :
    (middlewareA
        ⟨2000000, 1800000, false, some ("u1"),
          fun _ => some ⟨("u1"), ("a@b.c"), ("A"), ("B"), ("moderator"), true, false⟩⟩
        ⟨("/admin/gems"), ("GET"), none, none, some 1999000⟩ = ⟨.allow, true⟩ ↔
      ADMIN_ROLES_A.contains ("moderator") = true) ∧
    (ADMIN_ROLES_A.contains ("moderator") = false →
      middlewareA
        ⟨2000000, 1800000, false, some ("u1"),
          fun _ => some ⟨("u1"), ("a@b.c"), ("A"), ("B"), ("moderator"), true, false⟩⟩
        ⟨("/admin/gems"), ("GET"), none, none, some 1999000⟩ =
        ⟨.redirectForbidden, false⟩) ∧
    (middlewareB
        ⟨2000000, 1800000, false, some ("u1"),
          fun _ => some ⟨("u1"), ("a@b.c"), ("A"), ("B"), ("moderator"), true, false⟩⟩
        ⟨("/admin/gems"), ("GET"), none, none, some 1999000⟩ = ⟨.allow, true⟩ ↔
      ADMIN_ROLES_B.contains ("moderator") = true) ∧
    (ADMIN_ROLES_B.contains ("moderator") = false →
      middlewareB
        ⟨2000000, 1800000, false, some ("u1"),
          fun _ => some ⟨("u1"), ("a@b.c"), ("A"), ("B"), ("moderator"), true, false⟩⟩
        ⟨("/admin/gems"), ("GET"), none, none, some 1999000⟩ =
        ⟨.redirectForbidden, false⟩) :=
  role_check_exact_match
    ⟨2000000, 1800000, false, some ("u1"),
      fun _ => some ⟨("u1"), ("a@b.c"), ("A"), ("B"), ("moderator"), true, false⟩⟩
    ⟨("/admin/gems"), ("GET"), none, none, some 1999000⟩
    ("u1") ⟨("u1"), ("a@b.c"), ("A"), ("B"), ("moderator"), true, false⟩
    (by decide) (by decide) 1999000 rfl (by decide) (by decide) rfl rfl rfl
    (by decide)

/-- Request body of the login endpoint: email, password and the optional
two-factor code, each subject to JavaScript falsiness. -/
structure LoginInput where
  email : Option String
  password : Option String
  twoFactorToken : Option String
deriving DecidableEq

/-- Environment observed by one login request: the identity provider
answer to `signInWithPassword` (an error message, or a session for a user
id), the Profile Store lookup, and the names of the session cookies the
provider asks to be set on success. -/
structure LoginEnv where
  authError : Option String
  authSession : Option String
  findProfile : String → Option UserProfile
  providerCookies : List String

/-- Response of the login endpoint: HTTP status, error message, the
`requires2FA` body flag, the success flag, and the names of the cookies
set on the response. -/
structure LoginResponse where
  status : Nat
  errorMsg : Option String
  requires2FA : Bool
  success : Bool
  cookies : List String
deriving DecidableEq

/-- Modelled from the spec: `isAdmin` of `lib/auth/roles` (not under
src/) tests membership of the role in the privileged set
{superadmin, admin, moderator}. -/
def isAdminRole (role : String) : Bool :=
  ADMIN_ROLES_A.contains role

/-- The login handler of `src/app/api/auth/login/route.ts`. -/
def loginPOST (env : LoginEnv) (inp : LoginInput) : LoginResponse :=
  if optFalsy inp.email || optFalsy inp.password then
    ⟨400, some ("Email and password are required"), false, false, []⟩
  else
    match env.authError, env.authSession with
    | some msg, _ => ⟨401, some msg, false, false, []⟩
    | none, none => ⟨401, some ("Authentication failed"), false, false, []⟩
    | none, some uid =>
      match env.findProfile uid with
      | none => ⟨404, some ("User profile not found"), false, false, []⟩
      | some profile =>
        if profile.is_active = false then
          ⟨403, some ("Account is deactivated"), false, false, []⟩
        else if ¬ isAdminRole profile.role then
          ⟨403, some ("Access denied. Insufficient privileges."), false, false, []⟩
        else if profile.two_factor_enabled && optFalsy inp.twoFactorToken then
          ⟨200, some ("Two-factor authentication token required"), true, false, []⟩
        else if profile.two_factor_enabled &&
            decide ((inp.twoFactorToken.getD ("")).data.length ≠ 6) then
          ⟨401, some ("Invalid 2FA code"), false, false, []⟩
        else
          ⟨200, none, false, true, env.providerCookies ++ [("lastActivity")]⟩

/-- C6: with accepted credentials, an existing active profile holding a
privileged role and `two_factor_enabled = true` but no 2FA code, login
answers HTTP 200 with `requires2FA = true` and sets no cookies; and the
2FA branch sits behind the `is_active` and role checks, so a deactivated
or unprivileged user receives 403 and never the `requires2FA` answer. -/
theorem login_requires2FA_after_active_and_role :
    (∀ (env : LoginEnv) (inp : LoginInput) (uid : String) (profile : UserProfile),
      optFalsy inp.email = false → optFalsy inp.password = false →
      env.authError = none → env.authSession = some uid →
      env.findProfile uid = some profile →
      profile.is_active = true → isAdminRole profile.role = true →
      profile.two_factor_enabled = true → optFalsy inp.twoFactorToken = true →
      loginPOST env inp =
        ⟨200, some ("Two-factor authentication token required"), true, false, []⟩) ∧
    (∀ (env : LoginEnv) (inp : LoginInput) (uid : String) (profile : UserProfile),
      optFalsy inp.email = false → optFalsy inp.password = false →
      env.authError = none → env.authSession = some uid →
      env.findProfile uid = some profile →
      (profile.is_active = false ∨ isAdminRole profile.role = false) →
      (loginPOST env inp).status = 403 ∧ (loginPOST env inp).requires2FA = false) := by
  constructor
  · intro env inp uid profile hE hP hAE hAS hFP hAct hRole h2fa hTok
    simp [loginPOST, hE, hP, hAE, hAS, hFP, hAct, hRole, h2fa, hTok]
  · intro env inp uid profile hE hP hAE hAS hFP hBad
    cases hBad with
    | inl hInact => simp [loginPOST, hE, hP, hAE, hAS, hFP, hInact]
    | inr hPriv =>
      cases hAct : profile.is_active with
      | false => simp [loginPOST, hE, hP, hAE, hAS, hFP, hAct]
      | true => simp [loginPOST, hE, hP, hAE, hAS, hFP, hAct, hPriv]

theorem login_requires2FA_after_active_and_role_witness :
    loginPOST
      ⟨none, some ("u1"),
        fun _ => some ⟨("u1"), ("a@b.c"), ("A"), ("B"), ("admin"), true, true⟩,
        [("sb-access-token")]⟩
      ⟨some ("a@b.c"), some ("pw"), none⟩ =
      ⟨200, some ("Two-factor authentication token required"), true, false, []⟩ ∧
    (loginPOST
      ⟨none, some ("u2"),
        fun _ => some ⟨("u2"), ("c@d.e"), ("C"), ("D"), ("customer"), true, true⟩,
        []⟩
      ⟨some ("c@d.e"), some ("pw"), none⟩).status = 403 ∧
    (loginPOST
      ⟨none, some ("u2"),
        fun _ => some ⟨("u2"), ("c@d.e"), ("C"), ("D"), ("customer"), true, true⟩,
        []⟩
      ⟨some ("c@d.e"), some ("pw"), none⟩).requires2FA = false := by
  refine ⟨?_, ?_⟩
  · exact login_requires2FA_after_active_and_role.1
      ⟨none, some ("u1"),
        fun _ => some ⟨("u1"), ("a@b.c"), ("A"), ("B"), ("admin"), true, true⟩,
        [("sb-access-token")]⟩
      ⟨some ("a@b.c"), some ("pw"), none⟩
      ("u1") ⟨("u1"), ("a@b.c"), ("A"), ("B"), ("admin"), true, true⟩
      (by decide) (by decide) rfl rfl rfl rfl (by decide) rfl rfl
  · exact login_requires2FA_after_active_and_role.2
      ⟨none, some ("u2"),
        fun _ => some ⟨("u2"), ("c@d.e"), ("C"), ("D"), ("customer"), true, true⟩,
        []⟩
      ⟨some ("c@d.e"), some ("pw"), none⟩
      ("u2") ⟨("u2"), ("c@d.e"), ("C"), ("D"), ("customer"), true, true⟩
      (by decide) (by decide) rfl rfl rfl (Or.inr (by decide))

/-- Outcome of `authService.signOut()` as the logout route observes it:
a clean return, a reported error message, or a thrown exception. -/
inductive SignOutOutcome where
  | ok
  | err (msg : String)
  | thrown
deriving DecidableEq

/-- One cookie cleared on the logout response, with the attributes the
route passes to `cookies.set`. -/
structure ClearedCookie where
  name : String
  value : String
  httpOnly : Bool
  secureInProduction : Bool
  sameSiteLax : Bool
  maxAge : Nat
deriving DecidableEq

/-- Response of the logout endpoint: HTTP status, error message, and the
cookies cleared on the response. -/
structure LogoutResponse where
  status : Nat
  errorMsg : Option String
  cleared : List ClearedCookie
deriving DecidableEq

/-- The logout handler of `src/app/api/auth/logout/route.ts`: a provider
error maps to 400 with the message, a thrown exception to 500, and the
success path clears `sb-access-token` and `sb-refresh-token` with empty
value, `maxAge 0`, `httpOnly`, secure in production, `sameSite lax`. -/
def logoutPOST : SignOutOutcome → LogoutResponse
  | .err m => ⟨400, some m, []⟩
  | .thrown => ⟨500, some ("Internal server error"), []⟩
  | .ok =>
    ⟨200, none,
      [⟨("sb-access-token"), (""), true, true, true, 0⟩,
       ⟨("sb-refresh-token"), (""), true, true, true, 0⟩]⟩

/-- C9 as stated is false on the code: on a successful provider
sign-out the route clears only the identity-provider token cookies; the
application-managed `lastActivity` and `csrfToken` cookies are not
cleared, and the cleared cookies use `sameSite lax` rather than the
strict policy with which `lastActivity` is set. -/
theorem logout_does_not_clear_app_cookies :
    (logoutPOST .ok).cleared.map ClearedCookie.name =
      [("sb-access-token"), ("sb-refresh-token")] ∧
    ((logoutPOST .ok).cleared.map ClearedCookie.name).contains ("lastActivity") = false ∧
    ((logoutPOST .ok).cleared.map ClearedCookie.name).contains ("csrfToken") = false := by
  refine ⟨rfl, by decide, by decide⟩

/-- C9 (amended): the logout handler returns 400 carrying the provider
message exactly when sign-out reports an error; on success it clears the
two identity-provider session cookies `sb-access-token` and
`sb-refresh-token` — and only those — by setting an empty value with
immediate expiry (`maxAge 0`), `httpOnly`, secure in production and
`sameSite lax`; the `lastActivity` and `csrfToken` cookies are left in
place. -/
theorem logout_clears_provider_cookies :
    (∀ m, logoutPOST (.err m) = ⟨400, some m, []⟩) ∧
    logoutPOST .ok =
      ⟨200, none,
        [⟨("sb-access-token"), (""), true, true, true, 0⟩,
         ⟨("sb-refresh-token"), (""), true, true, true, 0⟩]⟩ := by
  exact ⟨fun m => rfl, rfl⟩

theorem logout_clears_provider_cookies_witness :
    logoutPOST (.err ("boom")) = ⟨400, some ("boom"), []⟩ :=
  logout_clears_provider_cookies.1 ("boom")

/-- Decimal digit to character. -/
def digitChar10 (d : Nat) : Char :=
  Char.ofNat (48 + d)

/-- Fuel-driven decimal rendering of a natural number (kernel-reducible
stand-in for number-to-string conversion). -/
def natToStrAux : Nat → Nat → List Char
  | 0, _ => []
  | fuel + 1, n =>
    if n = 0 then [] else natToStrAux fuel (n / 10) ++ [digitChar10 (n % 10)]

/-- Decimal rendering of a natural number. -/
def natToStr (n : Nat) : String :=
  if n = 0 then ("0") else ⟨natToStrAux n n⟩

/-- Modelled from the spec: `formatPayhereAmount` of `lib/payhere/hash`
(not under src/) renders the amount as a canonical fixed two-decimal
string. -/
def formatPayhereAmount (a : Rat) : String :=
  let cents : Nat := ((a.num * 100).ediv a.den).toNat
  let frac : Nat := cents % 100
  natToStr (cents / 100) ++ (".") ++
    (if frac < 10 then ("0") ++ natToStr frac else natToStr frac)

/-- The inputs of the payment integrity hash. -/
structure PayhereHashInput where
  merchant_id : String
  order_id : String
  amount : String
  currency : String
  secret : String
deriving DecidableEq

/-- Modelled from the spec: `generatePayhereHash` of `lib/payhere/hash`
(not under src/) computes a keyed cryptographic digest over
{merchant_id, order_id, formatted amount, currency} with the shared
secret.  The digest primitive is not described by the spec, so the hash
is modelled as the keyed field concatenation the digest is computed over;
it is a plain function of its five inputs, which is the property under
verification. -/
def generatePayhereHash (i : PayhereHashInput) : String :=
  i.merchant_id ++ i.order_id ++ i.amount ++ i.currency ++ i.secret

/-- A checkout payload as the payment-create route reads it after the
typed field extraction. -/
structure CheckoutPayload where
  order_id : String
  amount : Rat
  currency : String
  first_name : String
  last_name : String
  email : String
  phone : String
  address : String
  city : String
  country : String
  items : Option String
deriving DecidableEq

/-- One violated rule of the generic field-level validation pass. -/
inductive FieldError where
  | requiredMissing (field : String)
  | amountOutOfRange
deriving DecidableEq

/-- Modelled from the spec: the generic field-level pass of
`validateInput` (`lib/validation` is not under src/) applied to the rule
list of the route: every string field is required (violated when empty),
and the amount must satisfy the numeric bounds — amount in
(0, 10000000].  All violated rules are enumerated. -/
def genericValidationErrors (p : CheckoutPayload) : List FieldError :=
  (if p.order_id = ("") then [.requiredMissing ("order_id")] else []) ++
  (if 0 < p.amount ∧ p.amount ≤ 10000000 then [] else [.amountOutOfRange]) ++
  (if p.currency = ("") then [.requiredMissing ("currency")] else []) ++
  (if p.first_name = ("") then [.requiredMissing ("first_name")] else []) ++
  (if p.last_name = ("") then [.requiredMissing ("last_name")] else []) ++
  (if p.email = ("") then [.requiredMissing ("email")] else []) ++
  (if p.phone = ("") then [.requiredMissing ("phone")] else []) ++
  (if p.address = ("") then [.requiredMissing ("address")] else []) ++
  (if p.city = ("") then [.requiredMissing ("city")] else []) ++
  (if p.country = ("") then [.requiredMissing ("country")] else [])

/-- One violated rule of the domain-specific payment validation pass. -/
inductive PaymentError where
  | currencyMalformed
  | emailInvalid
deriving DecidableEq

/-- Modelled from the spec: the domain-specific pass of
`validatePaymentData` (`lib/payhere/hash` is not under src/): the
currency code must be a well-formed three-letter code and the email must
be syntactically valid (contain an at sign). -/
def paymentValidationErrors (p : CheckoutPayload) : List PaymentError :=
  (if p.currency.data.length = 3 then [] else [.currencyMalformed]) ++
  (if p.email.data.contains ('@') then [] else [.emailInvalid])

/-- A persisted payment record: the columns the route writes that the
claims consult. -/
structure PaymentRecord where
  order_id : String
  user_id : Option String
  amount : Rat
  currency : String
  status : String
  customer_email : String
  merchant_id : String
deriving DecidableEq

/-- Modelled from the spec: `PaymentRepository.findByOrderId` (the
repository class is not under src/) returns a persisted record with the
given order id, if any. -/
def findByOrderId (store : List PaymentRecord) (oid : String) : Option PaymentRecord :=
  store.find? (fun r => r.order_id == oid)

/-- Environment of one payment-create request: the rate limiter verdict,
the optional authenticated user, and the gateway configuration. -/
structure PaymentEnv where
  rateLimitOk : Bool
  authUser : Option String
  merchantId : String
  merchantSecret : String

/-- Response of the payment-create endpoint. -/
inductive PaymentResponse where
  | tooManyRequests
  | invalid (errors : List FieldError)
  | invalidPayment (errors : List PaymentError)
  | conflict
  | created (payment : PaymentRecord) (hash : String)
deriving DecidableEq

/-- The payment-create handler of `src/app/api/payment/create/route.ts`:
rate limit, the two validation passes, the order-id idempotency check,
then hash computation and persistence of a `pending` record.  The
returned store is the persisted state after the request. -/
def paymentCreatePOST (env : PaymentEnv) (store : List PaymentRecord)
    (p : CheckoutPayload) : PaymentResponse × List PaymentRecord :=
  if env.rateLimitOk = false then (.tooManyRequests, store)
  else if genericValidationErrors p ≠ [] then (.invalid (genericValidationErrors p), store)
  else if paymentValidationErrors p ≠ [] then
    (.invalidPayment (paymentValidationErrors p), store)
  else
    match findByOrderId store p.order_id with
    | some _ => (.conflict, store)
    | none =>
      let record : PaymentRecord :=
        ⟨p.order_id, env.authUser, p.amount, p.currency, ("pending"), p.email,
          env.merchantId⟩
      let hash := generatePayhereHash
        ⟨env.merchantId, p.order_id, formatPayhereAmount p.amount, p.currency,
          env.merchantSecret⟩
      (.created record hash, store ++ [record])

/-- Number of persisted records carrying the given order id. -/
def countOrder (store : List PaymentRecord) (oid : String) : Nat :=
  (store.filter (fun r => r.order_id == oid)).length

lemma find?_append_of_none {α : Type} (p : α → Bool) (l1 l2 : List α)
    (h : l1.find? p = none) : (l1 ++ l2).find? p = l2.find? p := by
  induction l1 with
  | nil => simp
  | cons a t ih =>
    cases hp : p a with
    | true => simp [List.find?, hp] at h
    | false =>
      simp only [List.find?, hp] at h
      simp only [List.cons_append, List.find?, hp]
      exact ih h

lemma filter_eq_nil_of_find?_none {α : Type} (p : α → Bool) (l : List α)
    (h : l.find? p = none) : l.filter p = [] := by
  induction l with
  | nil => rfl
  | cons a t ih =>
    cases hp : p a with
    | true => simp [List.find?, hp] at h
    | false =>
      simp only [List.find?, hp] at h
      simp [List.filter, hp, ih h]

/-- The record the route persists for payload `p` in environment `env`. -/
def mkPaymentRecord (env : PaymentEnv) (p : CheckoutPayload) : PaymentRecord :=
  ⟨p.order_id, env.authUser, p.amount, p.currency, ("pending"), p.email, env.merchantId⟩

lemma paymentCreatePOST_fresh (env : PaymentEnv) (store : List PaymentRecord)
    (p : CheckoutPayload) (hRl : env.rateLimitOk = true)
    (hV1 : genericValidationErrors p = []) (hV2 : paymentValidationErrors p = [])
    (hNone : findByOrderId store p.order_id = none) :
    paymentCreatePOST env store p =
      (.created (mkPaymentRecord env p)
        (generatePayhereHash
          ⟨env.merchantId, p.order_id, formatPayhereAmount p.amount, p.currency,
            env.merchantSecret⟩),
       store ++ [mkPaymentRecord env p]) := by
  simp [paymentCreatePOST, hRl, hV1, hV2, hNone, mkPaymentRecord]

/-- C4: the order id is an idempotency key.  If a record for the payload
order id is already persisted, the route answers conflict (409) and
leaves the store unchanged; and starting from a store without the order
id, a first create persists exactly one record for it while a second
identical attempt answers conflict and changes nothing, leaving exactly
one persisted record. -/
theorem payment_create_order_id_idempotent :
    (∀ (env : PaymentEnv) (store : List PaymentRecord) (p : CheckoutPayload)
      (r : PaymentRecord), env.rateLimitOk = true →
      genericValidationErrors p = [] → paymentValidationErrors p = [] →
      findByOrderId store p.order_id = some r →
      paymentCreatePOST env store p = (.conflict, store)) ∧
    (∀ (env : PaymentEnv) (store : List PaymentRecord) (p : CheckoutPayload),
      env.rateLimitOk = true →
      genericValidationErrors p = [] → paymentValidationErrors p = [] →
      findByOrderId store p.order_id = none →
      countOrder (paymentCreatePOST env store p).2 p.order_id = 1 ∧
      (paymentCreatePOST env (paymentCreatePOST env store p).2 p).1 = .conflict ∧
      (paymentCreatePOST env (paymentCreatePOST env store p).2 p).2 =
        (paymentCreatePOST env store p).2) := by
  constructor
  · intro env store p r hRl hV1 hV2 hFound
    simp [paymentCreatePOST, hRl, hV1, hV2, hFound]
  · intro env store p hRl hV1 hV2 hNone
    have hstep := paymentCreatePOST_fresh env store p hRl hV1 hV2 hNone
    have hfilter : store.filter (fun r => r.order_id == p.order_id) = [] :=
      filter_eq_nil_of_find?_none _ _ hNone
    have hfind2 : findByOrderId (store ++ [mkPaymentRecord env p]) p.order_id =
        some (mkPaymentRecord env p) := by
      unfold findByOrderId at hNone ⊢
      rw [find?_append_of_none _ _ _ hNone]
      simp [List.find?, mkPaymentRecord]
    refine ⟨?_, ?_, ?_⟩
    · rw [hstep]
      simp [countOrder, List.filter_append, hfilter, mkPaymentRecord]
    · rw [hstep]
      simp [paymentCreatePOST, hRl, hV1, hV2, hfind2]
    · rw [hstep]
      simp [paymentCreatePOST, hRl, hV1, hV2, hfind2]

theorem payment_create_order_id_idempotent_witness :
    countOrder
      (paymentCreatePOST ⟨true, none, ("M123"), ("sec")⟩ []
        ⟨("ORD1"), 2500, ("LKR"), ("A"), ("B"), ("a@b.c"), ("077"), ("addr"),
          ("Colombo"), ("Sri Lanka"), none⟩).2 ("ORD1") = 1 ∧
    (paymentCreatePOST ⟨true, none, ("M123"), ("sec")⟩
      (paymentCreatePOST ⟨true, none, ("M123"), ("sec")⟩ []
        ⟨("ORD1"), 2500, ("LKR"), ("A"), ("B"), ("a@b.c"), ("077"), ("addr"),
          ("Colombo"), ("Sri Lanka"), none⟩).2
      ⟨("ORD1"), 2500, ("LKR"), ("A"), ("B"), ("a@b.c"), ("077"), ("addr"),
        ("Colombo"), ("Sri Lanka"), none⟩).1 = .conflict ∧
    (paymentCreatePOST ⟨true, none, ("M123"), ("sec")⟩
      (paymentCreatePOST ⟨true, none, ("M123"), ("sec")⟩ []
        ⟨("ORD1"), 2500, ("LKR"), ("A"), ("B"), ("a@b.c"), ("077"), ("addr"),
          ("Colombo"), ("Sri Lanka"), none⟩).2
      ⟨("ORD1"), 2500, ("LKR"), ("A"), ("B"), ("a@b.c"), ("077"), ("addr"),
        ("Colombo"), ("Sri Lanka"), none⟩).2 =
      (paymentCreatePOST ⟨true, none, ("M123"), ("sec")⟩ []
        ⟨("ORD1"), 2500, ("LKR"), ("A"), ("B"), ("a@b.c"), ("077"), ("addr"),
          ("Colombo"), ("Sri Lanka"), none⟩).2 :=
  payment_create_order_id_idempotent.2
    ⟨true, none, ("M123"), ("sec")⟩ []
    ⟨("ORD1"), 2500, ("LKR"), ("A"), ("B"), ("a@b.c"), ("077"), ("addr"),
      ("Colombo"), ("Sri Lanka"), none⟩
    rfl (by decide) (by decide) rfl

lemma amountOutOfRange_not_mem_required (f : String) (c : Prop) [Decidable c] :
    (FieldError.amountOutOfRange ∈
      (if c then [FieldError.requiredMissing f] else [])) = False := by
  by_cases hc : c <;> simp [hc]

/-- C5: the generic validation pass accepts an amount exactly when it
lies in (0, 10000000].  A payload whose amount is outside the interval
is answered 400 with the enumerated violations citing the amount rule
and no state change; a payload whose amount is inside the interval never
has the amount rule among its violations. -/
theorem amount_rule_exact_interval :
    (∀ (env : PaymentEnv) (store : List PaymentRecord) (p : CheckoutPayload),
      env.rateLimitOk = true →
      ¬ (0 < p.amount ∧ p.amount ≤ 10000000) →
      (paymentCreatePOST env store p).1 = .invalid (genericValidationErrors p) ∧
      FieldError.amountOutOfRange ∈ genericValidationErrors p ∧
      (paymentCreatePOST env store p).2 = store) ∧
    (∀ p : CheckoutPayload, (0 < p.amount ∧ p.amount ≤ 10000000) →
      FieldError.amountOutOfRange ∉ genericValidationErrors p) := by
  constructor
  · intro env store p hRl hBad
    have hMem : FieldError.amountOutOfRange ∈ genericValidationErrors p := by
      simp [genericValidationErrors, hBad, List.mem_append]
    have hne : genericValidationErrors p ≠ [] := by
      intro hn
      rw [hn] at hMem
      exact absurd hMem (List.not_mem_nil _)
    refine ⟨?_, hMem, ?_⟩
    · simp [paymentCreatePOST, hRl, hne]
    · simp [paymentCreatePOST, hRl, hne]
  · intro p hGood hmem
    simp only [genericValidationErrors, if_pos hGood, List.append_nil, List.nil_append,
      List.mem_append, amountOutOfRange_not_mem_required, or_false, false_or] at hmem

theorem amount_rule_exact_interval_witness :
    (paymentCreatePOST ⟨true, none, ("M123"), ("sec")⟩ []
      ⟨("ORD2"), 10000001, ("LKR"), ("A"), ("B"), ("a@b.c"), ("077"), ("addr"),
        ("Colombo"), ("Sri Lanka"), none⟩).1 =
      .invalid (genericValidationErrors
        ⟨("ORD2"), 10000001, ("LKR"), ("A"), ("B"), ("a@b.c"), ("077"), ("addr"),
          ("Colombo"), ("Sri Lanka"), none⟩) ∧
    FieldError.amountOutOfRange ∈ genericValidationErrors
      ⟨("ORD2"), 10000001, ("LKR"), ("A"), ("B"), ("a@b.c"), ("077"), ("addr"),
        ("Colombo"), ("Sri Lanka"), none⟩ ∧
    FieldError.amountOutOfRange ∉ genericValidationErrors
      ⟨("ORD1"), 2500, ("LKR"), ("A"), ("B"), ("a@b.c"), ("077"), ("addr"),
        ("Colombo"), ("Sri Lanka"), none⟩ := by
  have h := amount_rule_exact_interval.1 ⟨true, none, ("M123"), ("sec")⟩ []
    ⟨("ORD2"), 10000001, ("LKR"), ("A"), ("B"), ("a@b.c"), ("077"), ("addr"),
      ("Colombo"), ("Sri Lanka"), none⟩ rfl (by decide)
  exact ⟨h.1, h.2.1, amount_rule_exact_interval.2
    ⟨("ORD1"), 2500, ("LKR"), ("A"), ("B"), ("a@b.c"), ("077"), ("addr"),
      ("Colombo"), ("Sri Lanka"), none⟩ (by decide)⟩

/-- C8: the payment integrity hash is a plain function of exactly
{merchant_id, order_id, formatted amount, currency, secret}: two
invocations on inputs agreeing on these five fields produce identical
hash strings — no hidden state enters the computation. -/
theorem payhere_hash_deterministic (i j : PayhereHashInput)
    (h1 : i.merchant_id = j.merchant_id) (h2 : i.order_id = j.order_id)
    (h3 : i.amount = j.amount) (h4 : i.currency = j.currency)
    (h5 : i.secret = j.secret) :
    generatePayhereHash i = generatePayhereHash j := by
  simp [generatePayhereHash, h1, h2, h3, h4, h5]

theorem payhere_hash_deterministic_witness :
    generatePayhereHash ⟨("M123"), ("ORD1"), ("2500.00"), ("LKR"), ("sec")⟩ =
    generatePayhereHash ⟨("M123"), ("ORD1"), ("2500.00"), ("LKR"), ("sec")⟩ :=
  payhere_hash_deterministic
    ⟨("M123"), ("ORD1"), ("2500.00"), ("LKR"), ("sec")⟩
    ⟨("M123"), ("ORD1"), ("2500.00"), ("LKR"), ("sec")⟩
    rfl rfl rfl rfl rfl
